import Mathlib

/-!
Verification of the orchestration core of the `dot` voice-assistant repository.

The development shallowly embeds the rule-based pipeline from
`src/app/lib`: the memory manager (`memory/manager.ts`), the router
(`agents/router.ts`), the tool registry and built-in tools (`tools/*`),
the context builder (`context/builder.ts`) and the orchestrator
(`orchestrator.ts`).

Modelling conventions:
- JavaScript strings are Lean `String`s (character-based lengths; the
  sources only ever handle ASCII text, where UTF-16 units and characters
  coincide).
- JavaScript numbers used for scores/confidences are `ℚ`; timestamps are
  `ℤ` milliseconds; `Date.now()`, random id generation and
  `performance.now()` are environment inputs, passed in as explicit
  parameters (ids, `now`, elapsed durations).
- Wall-clock durations measured with `performance.now()` are abstracted
  to `0` where the source records an elapsed time of its own; the
  orchestrator threads an explicit `elapsed` parameter.
- Locale-dependent renderings (`toLocaleDateString`, `toLocaleTimeString`)
  are abstracted to the decimal timestamp.
- `async` functions that can reject are embedded as `Except String`
  valued functions; functions whose bodies cannot throw are total.
- JavaScript's stable `Array.prototype.sort` with comparator
  `(a, b) => key(b) - key(a)` is embedded as a stable descending
  insertion sort (`sortByDesc`).
-/

/-! ### JavaScript string primitives -/

/-- JS `\w` character class: `[A-Za-z0-9_]`. -/
def isWordChar (c : Char) : Bool :=
  c.isAlphanum || c = '_'

/-- JS `\s` character class (whitespace and line separators). -/
def isJsSpace (c : Char) : Bool :=
  c ∈ ['\t', '\n', '\x0b', '\x0c', '\r', ' ', '\u00A0', '\u1680',
       '\u2000', '\u2001', '\u2002', '\u2003', '\u2004', '\u2005',
       '\u2006', '\u2007', '\u2008', '\u2009', '\u200A', '\u2028',
       '\u2029', '\u202F', '\u205F', '\u3000', '\uFEFF']

/-- JS line terminators, which `.` in a regex does not match. -/
def isLineTerminator (c : Char) : Bool :=
  c ∈ ['\n', '\r', '\u2028', '\u2029']

/-- Substring occurrence on character lists (JS `String.prototype.includes`). -/
def listContains (haystack needle : List Char) : Bool :=
  match haystack with
  | [] => needle.isEmpty
  | _ :: t => needle.isPrefixOf haystack || listContains t needle

/-- JS `haystack.includes(needle)`. -/
def containsSubstr (haystack needle : String) : Bool :=
  listContains haystack.data needle.data

/-- A JS regex that is an alternation of literal strings (`/a|b|c/`)
tests true exactly when some alternative occurs as a substring. -/
def regexAltTest (alternatives : List String) (s : String) : Bool :=
  alternatives.any (fun a => containsSubstr s a)

/-- `s.replace(/[^\w\s]/g, '')`: delete characters that are neither
word characters nor whitespace. -/
def stripNonWordSpace (s : String) : String :=
  (s.data.filter (fun c => isWordChar c || isJsSpace c)).asString

/-- `toLowerCase`, character by character (`Char.toLower`; the sources
only lowercase ASCII text). -/
def jsToLower (s : String) : String :=
  (s.data.map Char.toLower).asString

/-- Split at every character satisfying `p`, keeping empty fragments
(the behaviour of `String.split` and of JS `split(c)` for a
single-character separator). -/
def splitByPred (p : Char → Bool) (s : String) : List String :=
  go s.data []
where
  go : List Char → List Char → List String
    | [], acc => [acc.reverse.asString]
    | c :: rest, acc =>
      if p c then acc.reverse.asString :: go rest []
      else go rest (c :: acc)

/-- JS `s.split(sep)` for a one-character separator. -/
def splitOnChar (sep : Char) (s : String) : List String :=
  splitByPred (fun c => c = sep) s

/-- `s.split(/\s+/)` composed with the callers' `length > 2` filters:
splitting at every whitespace character produces the same maximal
non-whitespace runs, plus empty fragments which every caller discards
via its minimum-length filter. -/
def splitOnWs (s : String) : List String :=
  splitByPred isJsSpace s

/-- JS `s.split(/\s+/)` exactly: fragments between maximal whitespace
runs, with an empty fragment for a leading or trailing run. -/
def splitWsRuns (s : String) : List String :=
  go s.data [] false
where
  go : List Char → List Char → Bool → List String
    | [], acc, _ => [acc.reverse.asString]
    | c :: rest, acc, inWs =>
      if isJsSpace c then
        if inWs then go rest acc true
        else acc.reverse.asString :: go rest [] true
      else go rest (c :: acc) false

/-- JS `s.trim()`: strip leading and trailing whitespace. -/
def jsTrim (s : String) : String :=
  ((s.data.dropWhile isJsSpace).reverse.dropWhile isJsSpace).reverse.asString

/-- Maximal runs of word characters: the tokens a JS `\b(w1|w2)\b`
word-alternation regex can match. -/
def wordTokens (s : String) : List String :=
  (splitByPred (fun c => !isWordChar c) s).filter (fun w => w ≠ "")

/-- `[...new Set(words)]`: deduplicate keeping first occurrences. -/
def dedupFirst (seen : List String) : List String → List String
  | [] => []
  | w :: ws => if w ∈ seen then dedupFirst seen ws else w :: dedupFirst (w :: seen) ws

/-- `s.charAt(0).toUpperCase() + s.slice(1)`. -/
def capitalizeFirst (s : String) : String :=
  match s.data with
  | [] => ""
  | c :: rest => (c.toUpper :: rest).asString

/-- Stable insertion of `x` into a descending-sorted list: `x` goes
after every element whose key is not strictly smaller. -/
def insertByDesc {α : Type} (key : α → ℚ) (x : α) : List α → List α
  | [] => [x]
  | y :: ys => if key y < key x then x :: y :: ys else y :: insertByDesc key x ys

/-- Stable descending sort, the behaviour of JS stable
`arr.sort((a, b) => key(b) - key(a))`: elements are inserted left to
right, each placed after earlier elements with an equal key. -/
def sortByDesc {α : Type} (key : α → ℚ) (l : List α) : List α :=
  l.foldl (fun acc x => insertByDesc key x acc) []

/-- JS `arr.slice(-n)` for `n > 0`: the last `n` elements. -/
def lastN {α : Type} (n : Nat) (l : List α) : List α :=
  l.drop (l.length - n)

/-! ### Data model (`src/app/lib/types.ts`) -/

inductive MessageRole where
  | user
  | assistant
  | system
  | tool
deriving DecidableEq

/-- The role string as stored in a JS message object. -/
def roleStr : MessageRole → String
  | .user => "user"
  | .assistant => "assistant"
  | .system => "system"
  | .tool => "tool"

/-- The only message metadata the orchestrator ever writes
(`reasoning` and `toolsUsed` on assistant messages). -/
structure MessageMeta where
  reasoning : Option String
  toolsUsed : List String
deriving DecidableEq

structure Message where
  id : String
  role : MessageRole
  content : String
  timestamp : Int
  metadata : Option MessageMeta := none
deriving DecidableEq

inductive IntentType where
  | knowledge_retrieval
  | memory_access
  | clarification_needed
  | conversation
  | multi_tool
deriving DecidableEq

/-- The only field of the free-form `parameters` record any tool reads
(`clarification_check` reads `parameters.lastMessages`). -/
structure ToolParameters where
  lastMessages : Option (List Message) := none
deriving DecidableEq

structure ToolInput where
  query : Option String := none
  timeframe : Option String := none
  category : Option String := none
  keywords : Option (List String) := none
  parameters : Option ToolParameters := none
deriving DecidableEq

structure RoutingDecision where
  intent : IntentType
  confidence : ℚ
  selectedTools : List String
  toolInputs : List (String × ToolInput)
  reasoning : String
deriving DecidableEq

structure MemoryEntry where
  id : String
  content : String
  timestamp : Int
  topics : List String
  relevanceScore : Option ℚ := none
deriving DecidableEq

structure MemorySearchResult where
  entries : List MemoryEntry
  totalFound : Nat
  searchQuery : String
deriving DecidableEq

inductive AmbiguityLevel where
  | low
  | medium
  | high
deriving DecidableEq

/-- `ClarificationAnalysis` from `tools/clarification-check.ts`. -/
structure ClarificationAnalysis where
  ambiguityLevel : AmbiguityLevel
  hasSufficientContext : Bool
  suggestedQuestions : List String
  possibleIntents : List String
  reasoning : String
deriving DecidableEq

/-- The payload `knowledge_search` returns in `ToolResult.data`. -/
structure KnowledgeData where
  results : List String
  searchTerms : List String
  categoriesSearched : List String
  totalResults : Nat
deriving DecidableEq

/-- The union of payloads the three built-in tools put in
`ToolResult.data` (typed `unknown` in the source). -/
inductive ToolData where
  | memory (r : MemorySearchResult)
  | knowledge (k : KnowledgeData)
  | clarification (a : ClarificationAnalysis)
deriving DecidableEq

/-- `ToolResult`; `data = none` models `data: null`.  The free-form
diagnostic `metadata` record is not modelled (no claim reads it), and
the wall-clock `executionTime` is abstracted (tools record `0`). -/
structure ToolResult where
  toolName : String
  success : Bool
  data : Option ToolData
  error : Option String := none
  executionTime : Nat
deriving DecidableEq

/-- A tool: `execute` may reject (modelled with `Except`). -/
structure Tool where
  name : String
  description : String
  execute : ToolInput → Except String ToolResult
  formatOutput : ToolResult → String

structure AgentResponse where
  content : String
  reasoning : Option String := none
deriving DecidableEq

structure PipelineResult where
  success : Bool
  response : AgentResponse
  routingDecision : RoutingDecision
  toolResults : List ToolResult
  totalExecutionTime : Nat
  error : Option String := none
deriving DecidableEq

structure ContextFrame where
  userMessage : Message
  conversationHistory : List Message
  routingDecision : RoutingDecision
  toolResults : List ToolResult
  formattedContext : String
  timestamp : Int
deriving DecidableEq

/-! ### Memory manager (`src/app/lib/memory/manager.ts`) -/

/-- The mutable state of a `MemoryManager` instance. -/
structure MemoryState where
  sessionHistory : List Message
  longTermMemory : List MemoryEntry
  sessionId : String
deriving DecidableEq

def dayMs : Int := 24 * 60 * 60 * 1000

/-- `initializeMockMemory`: the four mock long-term entries created in
the constructor, with timestamps relative to `Date.now()`. -/
def mockLongTermMemory (now : Int) : List MemoryEntry :=
  [ { id := "mem_1",
      content := "User discussed implementing a caching strategy for API responses",
      timestamp := now - 2 * dayMs,
      topics := ["caching", "api", "performance"] },
    { id := "mem_2",
      content := "User asked about best practices for error handling in TypeScript",
      timestamp := now - 5 * dayMs,
      topics := ["typescript", "error-handling", "best-practices"] },
    { id := "mem_3",
      content := "User mentioned they are building a voice-first AI assistant",
      timestamp := now - 7 * dayMs,
      topics := ["voice", "ai", "assistant", "project"] },
    { id := "mem_4",
      content := "User prefers functional programming patterns over OOP",
      timestamp := now - 10 * dayMs,
      topics := ["programming", "functional", "preferences"] } ]

/-- The `MemoryManager` constructor (`Date.now()` and the random
session id are explicit inputs). -/
def mkMemoryManager (now : Int) (sid : String) : MemoryState :=
  { sessionHistory := [], longTermMemory := mockLongTermMemory now, sessionId := sid }

def addToSession (s : MemoryState) (message : Message) : MemoryState :=
  { s with sessionHistory := s.sessionHistory ++ [message] }

/-- `getSessionHistory` returns a copy of the session history. -/
def getSessionHistory (s : MemoryState) : List Message :=
  s.sessionHistory

def getRecentHistory (s : MemoryState) (count : Nat := 10) : List Message :=
  lastN count s.sessionHistory

/-- `clearSession` empties the session history and mints a fresh
session id (the random id is an explicit input). -/
def clearSession (s : MemoryState) (newSid : String) : MemoryState :=
  { s with sessionHistory := [], sessionId := newSid }

/-- `addToLongTermMemory` appends a fresh entry (id and `Date.now()`
are explicit inputs) and returns it together with the new state. -/
def addToLongTermMemory (s : MemoryState) (content : String)
    (topics : List String) (newId : String) (now : Int) :
    MemoryEntry × MemoryState :=
  let entry : MemoryEntry :=
    { id := newId, content := content, timestamp := now, topics := topics }
  (entry, { s with longTermMemory := s.longTermMemory ++ [entry] })

/-- The stop-word set of `MemoryManager.extractQueryKeywords`. -/
def managerStopWords : List String :=
  ["the", "a", "an", "is", "are", "was", "were", "be", "been",
   "have", "has", "had", "do", "does", "did", "will", "would",
   "could", "should", "can", "to", "of", "in", "for", "on",
   "with", "at", "by", "from", "about", "what", "when", "where",
   "why", "how", "i", "you", "we", "they", "me", "my", "your",
   "remember", "recall", "mentioned", "said", "discussed", "talked"]

/-- `MemoryManager.extractQueryKeywords`. -/
def extractQueryKeywords (query : String) : List String :=
  (splitOnWs (stripNonWordSpace (jsToLower query))).filter
    (fun word => word.length > 2 && !(managerStopWords.contains word))

/-- One keyword's contribution in `calculateRelevance`: `+1` for a
content match, `+2` for a topic match. -/
def keywordScore (entry : MemoryEntry) (keyword : String) : Nat :=
  (if containsSubstr (jsToLower entry.content) (jsToLower keyword) then 1 else 0) +
  (if (entry.topics.map jsToLower).any
      (fun topic => containsSubstr topic (jsToLower keyword)) then 2 else 0)

/-- `MemoryManager.calculateRelevance`. -/
def calculateRelevance (entry : MemoryEntry) (keywords : List String) : ℚ :=
  if keywords.isEmpty then 0.1
  else ((keywords.map (keywordScore entry)).sum : ℚ) / (keywords.length : ℚ)

/-- `MemoryManager.filterByTimeframe` (`Date.now()` is an input). -/
def filterByTimeframe (s : MemoryState) (timeframe : Option String) (now : Int) :
    List MemoryEntry :=
  match timeframe with
  | none => s.longTermMemory
  | some tf =>
    if tf = "day" then s.longTermMemory.filter (fun e => e.timestamp ≥ now - dayMs)
    else if tf = "week" then s.longTermMemory.filter (fun e => e.timestamp ≥ now - 7 * dayMs)
    else if tf = "month" then s.longTermMemory.filter (fun e => e.timestamp ≥ now - 30 * dayMs)
    else s.longTermMemory

/-- `MemoryManager.search`.  The option defaults are
`keywords = []`, `maxResults = 5`. -/
def searchMemory (s : MemoryState) (query : String)
    (timeframe : Option String := none) (keywords : List String := [])
    (maxResults : Nat := 5) (now : Int := 0) : MemorySearchResult :=
  let filteredMemory := filterByTimeframe s timeframe now
  let queryKeywords := extractQueryKeywords query
  let allKeywords := queryKeywords ++ keywords
  let scoredMemory := filteredMemory.map
    (fun entry => { entry with relevanceScore := some (calculateRelevance entry allKeywords) })
  let relevantMemory :=
    (sortByDesc (fun e => e.relevanceScore.getD 0)
      (scoredMemory.filter (fun e => 0 < e.relevanceScore.getD 0))).take maxResults
  { entries := relevantMemory,
    totalFound := relevantMemory.length,
    searchQuery := query }

/-- `getSummary` (read-only rendering of the state). -/
def getSummary (s : MemoryState) : String :=
  let recentCount := min 3 s.sessionHistory.length
  let base := "Session ID: " ++ s.sessionId ++ "\n" ++
    "Messages in session: " ++ toString s.sessionHistory.length ++ "\n" ++
    "Long-term memories: " ++ toString s.longTermMemory.length ++ "\n"
  if recentCount > 0 then
    base ++ "\nRecent conversation:\n" ++
      String.join ((lastN recentCount s.sessionHistory).map
        (fun msg => "- [" ++ roleStr msg.role ++ "]: " ++ msg.content.take 100 ++ "...\n"))
  else base

/-- `toLocaleDateString` / `toLocaleTimeString` are locale dependent;
both are abstracted as the decimal millisecond timestamp. -/
def dateString (t : Int) : String := toString t

/-- JS `x.toFixed(0)` for the non-negative percentages rendered by the
pipeline: round half away from zero. -/
def fmtPercent (q : ℚ) : String := toString (round q : ℤ)

/-- `formatMemoryForContext`.  A relevance score of `0` or an absent
score is falsy in JS, so no relevance annotation is printed then. -/
def formatMemoryForContext (memories : List MemoryEntry) : String :=
  if memories.isEmpty then "No relevant memories found."
  else
    String.intercalate "\n" (memories.map (fun mem =>
      let relevance :=
        if mem.relevanceScore.getD 0 = 0 then ""
        else " (relevance: " ++ fmtPercent (mem.relevanceScore.getD 0 * 100) ++ "%)"
      "[" ++ dateString mem.timestamp ++ "]" ++ relevance ++ ": " ++ mem.content))

/-! ### Router (`src/app/lib/agents/router.ts`) -/

/-- `MEMORY_PATTERNS`: each `/i`-regex is an alternation of literal
substrings (the second expands its two groups into nine literals). -/
def MEMORY_PATTERNS : List (List String) :=
  [ ["remember", "recall", "last time", "previously", "earlier",
     "you said", "we discussed", "mentioned"],
    ["what did i say", "what did i discuss", "what did i talk about",
     "what did you say", "what did you discuss", "what did you talk about",
     "what did we say", "what did we discuss", "what did we talk about"],
    ["history", "past conversation"] ]

/-- `KNOWLEDGE_PATTERNS`, expanded likewise. -/
def KNOWLEDGE_PATTERNS : List (List String) :=
  [ ["how do", "how does", "how to", "how can",
     "what is", "explain", "tell me about", "describe"],
    ["best practice", "documentation", "guide", "tutorial"],
    ["information on", "information about", "learn about"] ]

/-- `RouterAgent.matchesPatterns`: some pattern tests true.  The `/i`
flag is modelled by lowering the text before the substring tests (all
pattern alternatives are lowercase literals). -/
def matchesPatterns (text : String) (patterns : List (List String)) : Bool :=
  patterns.any (fun alts => regexAltTest alts (jsToLower text))

/-- `CLARIFICATION_INDICATORS`: an anchored `/i` word-list match, a
1-to-15 character test (`.` excludes line terminators), and an anchored
yes/no-reply match. -/
def clarificationIndicatorsTest (content : String) : Bool :=
  (jsToLower content ∈ ["it", "this", "that", "the thing", "something"]) ||
  (1 ≤ content.length && content.length ≤ 15 &&
    content.data.all (fun c => !isLineTerminator c)) ||
  (jsToLower content ∈ ["yes", "no", "ok", "sure", "maybe"])

/-- The verb list of `RouterAgent.hasVerb`. -/
def commonVerbs : List String :=
  ["is", "are", "was", "were", "do", "does", "did", "have", "has", "had",
   "can", "could", "will", "would", "should", "get", "make", "know",
   "think", "want", "need", "see", "find", "tell", "ask", "use", "try"]

/-- `RouterAgent.hasVerb`: a `\b(...)\b` word match. -/
def hasVerb (text : String) : Bool :=
  (wordTokens (jsToLower text)).any (fun w => commonVerbs.contains w)

/-- `RouterAgent.needsClarification` (the router stores the `history`
argument in `this.conversationHistory` before calling this). -/
def needsClarification (content : String) (history : List Message) : Bool :=
  if clarificationIndicatorsTest content then true
  else
    let pronounCount :=
      (wordTokens (jsToLower content)).countP (fun w => w ∈ ["it", "this", "that", "they"])
    let hasNoContext := history.length = 0 || content.length < 20
    if pronounCount > 2 && hasNoContext then true
    else if (splitOnChar ' ' content).length ≤ 3 && !hasVerb content then true
    else false

/-- The stop-word set of `RouterAgent.extractKeywords`. -/
def routerStopWords : List String :=
  ["the", "a", "an", "is", "are", "was", "were", "be", "been", "being",
   "have", "has", "had", "do", "does", "did", "will", "would", "could",
   "should", "may", "might", "must", "can", "to", "of", "in", "for",
   "on", "with", "at", "by", "from", "up", "about", "into", "through",
   "during", "before", "after", "above", "below", "between", "under",
   "again", "further", "then", "once", "here", "there", "when", "where",
   "why", "how", "all", "any", "both", "each", "few", "more", "most",
   "other", "some", "such", "no", "nor", "not", "only", "own", "same",
   "so", "than", "too", "very", "just", "i", "you", "he", "she", "it",
   "we", "they", "what", "which", "who", "whom", "this", "that",
   "these", "those", "am", "and", "but", "if", "or", "because", "as",
   "until", "while"]

/-- `RouterAgent.extractKeywords`: lowercase, strip punctuation, split
on whitespace, keep words longer than 2 that are not stop words, and
deduplicate keeping first occurrences. -/
def extractKeywords (text : String) : List String :=
  dedupFirst [] ((splitOnWs (stripNonWordSpace (jsToLower text))).filter
    (fun word => word.length > 2 && !(routerStopWords.contains word)))

/-- `RouterAgent.extractMemoryInput`. -/
def extractMemoryInput (userMessage : Message) : ToolInput :=
  let content := jsToLower userMessage.content
  let timeframe : Option String :=
    if regexAltTest ["last week", "past week"] content then some "week"
    else if regexAltTest ["yesterday", "last day"] content then some "day"
    else if regexAltTest ["last month", "past month"] content then some "month"
    else none
  { query := some userMessage.content,
    timeframe := timeframe,
    keywords := some (extractKeywords userMessage.content) }

/-- `RouterAgent.extractKnowledgeInput`. -/
def extractKnowledgeInput (userMessage : Message) : ToolInput :=
  let content := jsToLower userMessage.content
  let category : Option String :=
    if regexAltTest ["code", "programming", "function", "api"] content then
      some "programming"
    else if regexAltTest ["design", "ui", "ux", "interface"] content then
      some "design"
    else if regexAltTest ["database", "sql", "query", "data"] content then
      some "data"
    else none
  { query := some userMessage.content,
    category := category,
    keywords := some (extractKeywords userMessage.content) }

/-- `RouterAgent.checkMultiTool`. -/
def checkMultiTool (content : String) (userMessage : Message) :
    Option RoutingDecision :=
  let needsMemory := matchesPatterns content MEMORY_PATTERNS
  let needsKnowledge := matchesPatterns content KNOWLEDGE_PATTERNS
  if needsMemory && needsKnowledge then
    some
      { intent := .multi_tool,
        confidence := 0.85,
        selectedTools := ["memory_recall", "knowledge_search"],
        toolInputs :=
          [("memory_recall", extractMemoryInput userMessage),
           ("knowledge_search", extractKnowledgeInput userMessage)],
        reasoning := "User query requires both memory recall and knowledge retrieval" }
  else none

/-- `RouterAgent.createMemoryDecision`. -/
def createMemoryDecision (userMessage : Message) : RoutingDecision :=
  { intent := .memory_access,
    confidence := 0.9,
    selectedTools := ["memory_recall"],
    toolInputs := [("memory_recall", extractMemoryInput userMessage)],
    reasoning := "User is requesting information from past conversations" }

/-- `RouterAgent.createKnowledgeDecision`. -/
def createKnowledgeDecision (userMessage : Message) : RoutingDecision :=
  { intent := .knowledge_retrieval,
    confidence := 0.9,
    selectedTools := ["knowledge_search"],
    toolInputs := [("knowledge_search", extractKnowledgeInput userMessage)],
    reasoning := "User is requesting factual information or explanations" }

/-- `RouterAgent.createClarificationDecision`. -/
def createClarificationDecision (userMessage : Message)
    (history : List Message) : RoutingDecision :=
  { intent := .clarification_needed,
    confidence := 0.85,
    selectedTools := ["clarification_check"],
    toolInputs :=
      [("clarification_check",
        { query := some userMessage.content,
          parameters := some { lastMessages := some (lastN 3 history) } })],
    reasoning := "User message is ambiguous or lacks sufficient context" }

/-- `RouterAgent.createConversationDecision`. -/
def createConversationDecision : RoutingDecision :=
  { intent := .conversation,
    confidence := 0.95,
    selectedTools := [],
    toolInputs := [],
    reasoning := "General conversational exchange, no specific tools needed" }

/-- `RouterAgent.route`: multi-tool check, then memory, knowledge,
clarification, and finally plain conversation. -/
def route (userMessage : Message) (history : List Message := []) :
    RoutingDecision :=
  let content := jsToLower userMessage.content
  match checkMultiTool content userMessage with
  | some multiToolDecision => multiToolDecision
  | none =>
    if matchesPatterns content MEMORY_PATTERNS then
      createMemoryDecision userMessage
    else if matchesPatterns content KNOWLEDGE_PATTERNS then
      createKnowledgeDecision userMessage
    else if needsClarification content history then
      createClarificationDecision userMessage history
    else createConversationDecision

/-! ### Knowledge-search tool (`src/app/lib/tools/knowledge-search.ts`) -/

/-- The mock `KNOWLEDGE_BASE`, category insertion order preserved. -/
def KNOWLEDGE_BASE : List (String × List String) :=
  [ ("programming",
     ["Use TypeScript for type safety in large applications",
      "Prefer functional programming patterns for better testability",
      "Implement proper error handling with try-catch and custom error types",
      "Use dependency injection for better code modularity",
      "Follow SOLID principles for maintainable code"]),
    ("design",
     ["Prioritize user experience over visual aesthetics",
      "Use consistent spacing and typography throughout the UI",
      "Implement responsive design for multi-device support",
      "Follow accessibility guidelines (WCAG) for inclusive design",
      "Use design systems for consistency across the application"]),
    ("data",
     ["Normalize database schemas to reduce redundancy",
      "Use indexes on frequently queried columns",
      "Implement proper data validation at both client and server",
      "Consider eventual consistency for distributed systems",
      "Use caching strategies to improve query performance"]),
    ("performance",
     ["Lazy load components that are not immediately visible",
      "Implement code splitting to reduce initial bundle size",
      "Use memoization for expensive computations",
      "Optimize images and assets for faster loading",
      "Profile and measure before optimizing"]),
    ("security",
     ["Never store sensitive data in plain text",
      "Implement proper authentication and authorization",
      "Sanitize all user inputs to prevent injection attacks",
      "Use HTTPS for all communications",
      "Follow the principle of least privilege"]) ]

/-- The stop-word set of the tool-local `extractSearchTerms`. -/
def knowledgeStopWords : List String :=
  ["the", "a", "an", "is", "are", "was", "were", "be", "been",
   "have", "has", "had", "do", "does", "did", "will", "would",
   "could", "should", "can", "to", "of", "in", "for", "on",
   "with", "at", "by", "from", "about", "what", "when", "where",
   "why", "how", "i", "you", "we", "they", "me", "my", "your",
   "tell", "explain", "describe", "information", "know", "best",
   "practice", "practices"]

/-- `Object.keys(KNOWLEDGE_BASE)` in insertion order. -/
def knowledgeCategories : List String := KNOWLEDGE_BASE.map Prod.fst

/-- `extractSearchTerms`. -/
def extractSearchTerms (query : String) : List String :=
  (splitOnWs (stripNonWordSpace (jsToLower query))).filter
    (fun word => word.length > 2 && !(knowledgeStopWords.contains word))

/-- Helper record for the per-item scoring in `searchInCategory`. -/
structure ScoredItem where
  item : String
  score : ℚ
deriving DecidableEq

/-- `searchInCategory`: with no search terms, the first two items;
otherwise the items containing at least one term, in descending score
order (the JS sort is stable). -/
def searchInCategory (category : String) (searchTerms : List String) :
    List String :=
  let categoryKnowledge := (List.lookup category KNOWLEDGE_BASE).getD []
  if searchTerms.isEmpty then categoryKnowledge.take 2
  else
    let scoredItems := categoryKnowledge.map (fun item =>
      { item := item,
        score := ((searchTerms.countP
          (fun term => containsSubstr (jsToLower item) term) : ℚ)) : ScoredItem })
    ((sortByDesc (fun si => si.score)
        (scoredItems.filter (fun si => 0 < si.score))).map (fun si => si.item))

/-- `[...new Set(results)].slice(0, 5)`. -/
def dedupTake5 (results : List String) : List String :=
  (dedupFirst [] results).take 5

/-- The body of `knowledgeSearchTool.execute`.  The body is total, so
the surrounding `try`/`catch` can never take its error branch. -/
def knowledgeSearchExecute (input : ToolInput) : ToolResult :=
  let query := input.query.getD ""
  let keywords := input.keywords.getD []
  let searchTerms := if !keywords.isEmpty then keywords else extractSearchTerms query
  let searched : List String × List String :=
    match input.category with
    | some category =>
      if (List.lookup category KNOWLEDGE_BASE).isSome then
        ([category], searchInCategory category searchTerms)
      else
        (knowledgeCategories,
         knowledgeCategories.flatMap (fun cat => searchInCategory cat searchTerms))
    | none =>
      (knowledgeCategories,
       knowledgeCategories.flatMap (fun cat => searchInCategory cat searchTerms))
  let uniqueResults := dedupTake5 searched.2
  { toolName := "knowledge_search",
    success := true,
    data := some (.knowledge
      { results := uniqueResults,
        searchTerms := searchTerms,
        categoriesSearched := searched.1,
        totalResults := uniqueResults.length }),
    executionTime := 0 }

/-- JS renders an absent (`undefined`) error field as `"undefined"`. -/
def optErr (o : Option String) : String := o.getD "undefined"

/-- `knowledgeSearchTool.formatOutput`.  The cast of `data` to the
knowledge payload is faithful only for results this tool produced; on
any other payload the source would throw on property access, which no
caller exercises (results are routed back to their own tool). -/
def knowledgeFormatOutput (result : ToolResult) : String :=
  if !result.success then "Knowledge search failed: " ++ optErr result.error
  else
    match result.data with
    | some (.knowledge data) =>
      if data.totalResults = 0 then "No relevant knowledge found for this query."
      else
        "Found " ++ toString data.totalResults ++ " relevant knowledge items:\n\n" ++
          String.join ((List.range data.results.length).zip data.results |>.map
            (fun p => toString (p.1 + 1) ++ ". " ++ p.2 ++ "\n"))
    | _ => ""

def knowledgeSearchTool : Tool :=
  { name := "knowledge_search",
    description := "Searches the knowledge base for relevant information, best practices, and documentation",
    execute := fun input => Except.ok (knowledgeSearchExecute input),
    formatOutput := knowledgeFormatOutput }

/-! ### Memory-recall tool (`src/app/lib/tools/memory-recall.ts`) -/

/-- The body of `memoryRecallTool.execute`: a search over the memory
manager's state (the tool closes over the singleton; here the state and
the search-time clock are explicit).  The body is total. -/
def memoryRecallExecute (mem : MemoryState) (now : Int) (input : ToolInput) :
    ToolResult :=
  let searchResult :=
    searchMemory mem (input.query.getD "") input.timeframe
      (input.keywords.getD []) 5 now
  { toolName := "memory_recall",
    success := true,
    data := some (.memory searchResult),
    executionTime := 0 }

/-- `memoryRecallTool.formatOutput`. -/
def memoryRecallFormatOutput (result : ToolResult) : String :=
  if !result.success then "Memory recall failed: " ++ optErr result.error
  else
    match result.data with
    | some (.memory searchResult) =>
      if searchResult.totalFound = 0 then "No relevant memories found for this query."
      else
        "Found " ++ toString searchResult.totalFound ++ " relevant memories:\n" ++
          formatMemoryForContext searchResult.entries
    | _ => ""

def memoryRecallTool (mem : MemoryState) (now : Int := 0) : Tool :=
  { name := "memory_recall",
    description := "Retrieves relevant information from past conversations and long-term memory",
    execute := fun input => Except.ok (memoryRecallExecute mem now input),
    formatOutput := memoryRecallFormatOutput }

/-! ### Clarification tool (`src/app/lib/tools/clarification-check.ts`) -/

/-- `analyzeAmbiguity`, followed step by step: the ambiguity level is
raised by later checks, questions and intents accumulate in order and
are capped at three. -/
def analyzeAmbiguity (query : String) (lastMessages : List Message) :
    ClarificationAnalysis :=
  let queryLower := jsTrim (jsToLower query)
  let wordCount := (splitWsRuns queryLower).length
  let step1 : AmbiguityLevel × List String × List String :=
    if wordCount ≤ 2 then
      (.high,
       ["Could you provide more details about what you need?"],
       ["Confirmation of previous topic", "New topic introduction"])
    else (.low, [], [])
  let pronouns :=
    (wordTokens queryLower).countP (fun w => w ∈ ["it", "this", "that", "they", "them"])
  let step2 : AmbiguityLevel × List String × List String :=
    if pronouns > 0 && lastMessages.length = 0 then
      (.high, step1.2.1 ++ ["What are you referring to?"], step1.2.2)
    else step1
  let isBareReply := queryLower ∈ ["yes", "no", "ok", "sure", "maybe", "probably"]
  let step3 : AmbiguityLevel × List String × List String :=
    if isBareReply then
      if lastMessages.length = 0 then
        (.high, step2.2.1 ++ ["Could you provide more context about what you mean?"], step2.2.2)
      else
        (.medium, step2.2.1,
         match (lastMessages.filter (fun m => m.role = .assistant)).getLast? with
         | some lastAssistant =>
           step2.2.2 ++ ["Responding to: \"" ++ lastAssistant.content.take 50 ++ "...\""]
         | none => step2.2.2)
    else step2
  let isPlainGreeting := queryLower ∈ ["help", "hello", "hi", "bye", "thanks"]
  let step4 : AmbiguityLevel × List String × List String :=
    if wordCount = 1 && !isPlainGreeting then
      (.high,
       step3.2.1 ++
         ["What would you like to know about \"" ++ query ++ "\"?",
          "Are you looking for information, help, or something else related to \"" ++ query ++ "\"?"],
       step3.2.2 ++ ["Topic exploration", "Definition request", "Help with specific task"])
    else step3
  let ambiguityLevel := step4.1
  let hasSufficientContext := lastMessages.length ≥ 2 || ambiguityLevel = .low
  let questions5 :=
    if ambiguityLevel = .medium && step4.2.1.length = 0 then
      step4.2.1 ++ ["Could you elaborate on what you need help with?"]
    else step4.2.1
  let questions6 :=
    if ambiguityLevel = .high && questions5.length < 2 then
      questions5 ++ ["What specific aspect are you interested in?"]
    else questions5
  let reasoning :=
    if ambiguityLevel = .high then
      "Message lacks sufficient context or specificity for a helpful response."
    else if ambiguityLevel = .medium then
      "Message could benefit from additional details but may be answerable."
    else "Message is clear enough to provide a helpful response."
  { ambiguityLevel := ambiguityLevel,
    hasSufficientContext := hasSufficientContext,
    suggestedQuestions := questions6.take 3,
    possibleIntents := step4.2.2.take 3,
    reasoning := reasoning }

/-- The body of `clarificationCheckTool.execute` (total). -/
def clarificationCheckExecute (input : ToolInput) : ToolResult :=
  let query := input.query.getD ""
  let lastMessages := ((input.parameters.map ToolParameters.lastMessages).join).getD []
  let analysis := analyzeAmbiguity query lastMessages
  { toolName := "clarification_check",
    success := true,
    data := some (.clarification analysis),
    executionTime := 0 }

def ambiguityStr : AmbiguityLevel → String
  | .low => "low"
  | .medium => "medium"
  | .high => "high"

/-- `clarificationCheckTool.formatOutput`. -/
def clarificationFormatOutput (result : ToolResult) : String :=
  if !result.success then "Clarification check failed: " ++ optErr result.error
  else
    match result.data with
    | some (.clarification analysis) =>
      let base := "Ambiguity Level: " ++ ambiguityStr analysis.ambiguityLevel ++ "\n" ++
        "Context Available: " ++ (if analysis.hasSufficientContext then "Yes" else "No") ++ "\n\n"
      let withQs :=
        if analysis.suggestedQuestions.length > 0 then
          base ++ "Suggested clarification questions:\n" ++
            String.join (((List.range analysis.suggestedQuestions.length).zip
              analysis.suggestedQuestions).map
              (fun p => toString (p.1 + 1) ++ ". " ++ p.2 ++ "\n"))
        else base
      if analysis.possibleIntents.length > 0 then
        withQs ++ "\nPossible user intents:\n" ++
          String.join (analysis.possibleIntents.map (fun intent => "- " ++ intent ++ "\n"))
      else withQs
    | _ => ""

def clarificationCheckTool : Tool :=
  { name := "clarification_check",
    description := "Analyzes ambiguous user messages and suggests clarification questions",
    execute := fun input => Except.ok (clarificationCheckExecute input),
    formatOutput := clarificationFormatOutput }

/-! ### Tool registry (`src/app/lib/tools/registry.ts`) -/

/-- The registry's `Map<string, Tool>`, as an insertion-ordered
association list (a JS `Map` preserves insertion order; `set` on an
existing key overwrites in place). -/
def ToolRegistry : Type := List (String × Tool)

/-- `ToolRegistry.register`. -/
def registerTool (reg : ToolRegistry) (tool : Tool) : ToolRegistry :=
  match reg with
  | [] => [(tool.name, tool)]
  | (n, u) :: rest =>
    if n = tool.name then (n, tool) :: rest
    else (n, u) :: registerTool rest tool

/-- `ToolRegistry.executeSingle`: a missing tool yields an immediate
failure result (`executionTime: 0` as in the source); a rejecting tool
is caught and converted into a failure result (its wall-clock duration
abstracted to `0`). -/
def executeSingle (reg : ToolRegistry) (toolName : String) (input : ToolInput) :
    ToolResult :=
  match List.lookup toolName reg with
  | none =>
    { toolName := toolName,
      success := false,
      data := none,
      error := some ("Tool \x27" ++ toolName ++ "\x27 not found in registry"),
      executionTime := 0 }
  | some tool =>
    match tool.execute input with
    | .ok result => result
    | .error e =>
      { toolName := toolName,
        success := false,
        data := none,
        error := some e,
        executionTime := 0 }

/-- `ToolRegistry.executeMultiple`: one `executeSingle` per key of the
input record, in key order (`Promise.all` preserves order and, since
`executeSingle` never rejects, never rejects itself). -/
def executeMultiple (reg : ToolRegistry) (toolInputs : List (String × ToolInput)) :
    List ToolResult :=
  toolInputs.map (fun p => executeSingle reg p.1 p.2)

/-- `ToolRegistry.formatResult`. -/
def formatResult (reg : ToolRegistry) (toolName : String) (result : ToolResult) :
    String :=
  match List.lookup toolName reg with
  | none => "[" ++ toolName ++ "] Error: Tool not found"
  | some tool => tool.formatOutput result

/-- `initializeTools` (`src/app/lib/tools/index.ts`): registers the
memory-recall, knowledge-search and clarification tools in order. -/
def setupTools (mem : MemoryState) (now : Int := 0) : ToolRegistry :=
  registerTool (registerTool (registerTool [] (memoryRecallTool mem now))
    knowledgeSearchTool) clarificationCheckTool

/-! ### Context builder (`src/app/lib/context/builder.ts`) -/

/-- `toFixed(2)` rendering of an execution time; the decimal rendering
is abstracted as the integer milliseconds value. -/
def fmtMs (n : Nat) : String := toString n

def intentStr : IntentType → String
  | .knowledge_retrieval => "knowledge_retrieval"
  | .memory_access => "memory_access"
  | .clarification_needed => "clarification_needed"
  | .conversation => "conversation"
  | .multi_tool => "multi_tool"

def intentHeader : String := "## User Intent\n"
def retrievedHeader : String := "## Retrieved Information\n"
def recentHeader : String := "## Recent Conversation\n"
def currentHeader : String := "## Current User Message\n"

/-- `ContextBuilder.formatIntentSection`. -/
def formatIntentSection (routingDecision : RoutingDecision) : String :=
  intentHeader ++
    ("- Type: " ++ intentStr routingDecision.intent ++ "\n" ++
     "- Confidence: " ++ fmtPercent (routingDecision.confidence * 100) ++ "%\n" ++
     "- Reasoning: " ++ routingDecision.reasoning ++ "\n" ++
     (if routingDecision.selectedTools.length > 0 then
        "- Tools Used: " ++ String.intercalate ", " routingDecision.selectedTools
      else ""))

/-- `ContextBuilder.formatToolName`: snake_case to Title Case. -/
def formatToolName (toolName : String) : String :=
  String.intercalate " " ((splitOnChar '_' toolName).map capitalizeFirst)

/-- `ContextBuilder.formatToolResultsSection` (uses the registry's
`formatResult`, as the source does through the singleton registry). -/
def formatToolResultsSection (reg : ToolRegistry) (toolResults : List ToolResult) :
    String :=
  retrievedHeader ++
    String.join (toolResults.map (fun result =>
      "\n### " ++ formatToolName result.toolName ++ "\n" ++
        formatResult reg result.toolName result ++
        "\n(Execution time: " ++ fmtMs result.executionTime ++ "ms)"))

/-- `ContextBuilder.truncateContent`. -/
def truncateContent (content : String) (maxLength : Nat) : String :=
  if content.length ≤ maxLength then content
  else content.take maxLength ++ "..."

/-- One message block of the recent-conversation section. -/
def historyBlock (message : Message) : String :=
  "\n[" ++ dateString message.timestamp ++ "] " ++
    capitalizeFirst (roleStr message.role) ++ ":\n" ++
    truncateContent message.content 200 ++ "\n"

/-- `ContextBuilder.formatHistorySection`: header plus one block per
message of the last six. -/
def formatHistorySection (history : List Message) : String :=
  recentHeader ++ String.join ((lastN 6 history).map historyBlock)

/-- `ContextBuilder.formatCurrentQuerySection`. -/
def formatCurrentQuerySection (userMessage : Message) : String :=
  currentHeader ++ userMessage.content

/-- `ContextBuilder.needsConversationContext`. -/
def needsConversationContext (routingDecision : RoutingDecision) : Bool :=
  routingDecision.intent = .clarification_needed ||
  routingDecision.intent = .conversation ||
  routingDecision.intent = .memory_access

/-- The `sections` array assembled by `ContextBuilder.formatContext`. -/
def formatContextSections (reg : ToolRegistry) (userMessage : Message)
    (history : List Message) (routingDecision : RoutingDecision)
    (toolResults : List ToolResult) : List String :=
  [formatIntentSection routingDecision] ++
  (if toolResults.length > 0 then [formatToolResultsSection reg toolResults] else []) ++
  (if history.length > 0 && needsConversationContext routingDecision then
     [formatHistorySection history]
   else []) ++
  [formatCurrentQuerySection userMessage]

/-- `ContextBuilder.formatContext`: the sections joined by the visible
separator. -/
def formatContext (reg : ToolRegistry) (userMessage : Message)
    (history : List Message) (routingDecision : RoutingDecision)
    (toolResults : List ToolResult) : String :=
  String.intercalate "\n\n---\n\n"
    (formatContextSections reg userMessage history routingDecision toolResults)

/-- `ContextBuilder.build` with the default `maxHistoryLength = 10`
(`Date.now()` is an input). -/
def buildContext (reg : ToolRegistry) (userMessage : Message)
    (conversationHistory : List Message) (routingDecision : RoutingDecision)
    (toolResults : List ToolResult) (now : Int) : ContextFrame :=
  let trimmedHistory := lastN 10 conversationHistory
  { userMessage := userMessage,
    conversationHistory := trimmedHistory,
    routingDecision := routingDecision,
    toolResults := toolResults,
    formattedContext :=
      formatContext reg userMessage trimmedHistory routingDecision toolResults,
    timestamp := now }

/-! ### Orchestrator (`src/app/lib/orchestrator.ts`) -/

/-- `Orchestrator.shouldStoreInLongTermMemory`. -/
def shouldStoreInLongTermMemory (routingDecision : RoutingDecision) : Bool :=
  routingDecision.intent = .knowledge_retrieval ||
  routingDecision.intent = .memory_access ||
  routingDecision.intent = .multi_tool

/-- The topic keyword patterns of `Orchestrator.extractTopics`, in
`Object.entries` order. -/
def topicPatterns : List (String × List String) :=
  [ ("programming", ["code", "programming", "function", "api", "typescript", "javascript"]),
    ("design", ["design", "ui", "ux", "interface", "layout"]),
    ("data", ["database", "data", "query", "storage"]),
    ("performance", ["performance", "speed", "optimize", "cache"]),
    ("security", ["security", "auth", "encrypt", "protect"]),
    ("ai", ["ai", "machine learning", "model", "neural"]),
    ("architecture", ["architecture", "pattern", "system", "structure"]) ]

/-- `Orchestrator.extractTopics`: up to three topics whose pattern
matches the combined user input and response. -/
def extractTopics (userInput : String) (response : String) : List String :=
  let combined := jsToLower (userInput ++ " " ++ response)
  ((topicPatterns.filter (fun p => regexAltTest p.2 combined)).map Prod.fst).take 3

/-- The user `Message` the orchestrator constructs (id and `Date.now()`
are inputs). -/
def mkUserMessage (userInput : String) (msgId : String) (now : Int) : Message :=
  { id := msgId, role := .user, content := userInput, timestamp := now }

/-- The fixed routing decision of the pipeline's `catch` branch. -/
def errorRoutingDecision : RoutingDecision :=
  { intent := .conversation,
    confidence := 0,
    selectedTools := [],
    toolInputs := [],
    reasoning := "Error occurred during processing" }

/-- The fixed apologetic content of the pipeline's `catch` branch. -/
def apologyContent : String :=
  "I apologize, but I encountered an issue processing your request. Could you try rephrasing that?"

/-- The `PipelineResult` returned by the `catch` branch of
`processMessage`. -/
def pipelineFailureResult (e : String) (elapsed : Nat) : PipelineResult :=
  { success := false,
    response := { content := apologyContent, reasoning := some "Pipeline execution failed" },
    routingDecision := errorRoutingDecision,
    toolResults := [],
    totalExecutionTime := elapsed,
    error := some e }

/-- The `try` block of `Orchestrator.processMessage`, after the user
message has been appended to the session (`mem1`).  The router, tool
registry and context builder are total; the response agent is the
injected collaborator that may reject. -/
def pipelineBody (genResponse : ContextFrame → Except String AgentResponse)
    (reg : ToolRegistry) (mem1 : MemoryState) (userMessage : Message)
    (asstId memId : String) (now : Int) (elapsed : Nat) :
    Except String (PipelineResult × MemoryState) :=
  let conversationHistory := (getSessionHistory mem1).dropLast
  let routingDecision := route userMessage conversationHistory
  let toolResults := executeMultiple reg routingDecision.toolInputs
  let contextFrame :=
    buildContext reg userMessage conversationHistory routingDecision toolResults now
  match genResponse contextFrame with
  | .error e => .error e
  | .ok agentResponse =>
    let assistantMessage : Message :=
      { id := asstId, role := .assistant, content := agentResponse.content,
        timestamp := now,
        metadata := some { reasoning := agentResponse.reasoning,
                           toolsUsed := routingDecision.selectedTools } }
    let mem2 := addToSession mem1 assistantMessage
    let mem3 :=
      if shouldStoreInLongTermMemory routingDecision then
        (addToLongTermMemory mem2
          ("User asked about: " ++ userMessage.content ++ ". Assistant discussed: " ++
            agentResponse.content.take 100)
          (extractTopics userMessage.content agentResponse.content) memId now).2
      else mem2
    .ok
      ({ success := true,
         response := agentResponse,
         routingDecision := routingDecision,
         toolResults := toolResults,
         totalExecutionTime := elapsed },
       mem3)

/-- `Orchestrator.processMessage`: append the user message, run the
pipeline, and convert any rejection into the fixed failure result.  It
always returns (never throws); ids, timestamps and the elapsed
wall-clock time are explicit inputs. -/
def processMessage (genResponse : ContextFrame → Except String AgentResponse)
    (reg : ToolRegistry) (mem : MemoryState) (userInput : String)
    (msgId asstId memId : String) (now : Int) (elapsed : Nat) :
    PipelineResult × MemoryState :=
  let userMessage := mkUserMessage userInput msgId now
  let mem1 := addToSession mem userMessage
  match pipelineBody genResponse reg mem1 userMessage asstId memId now elapsed with
  | .ok r => r
  | .error e => (pipelineFailureResult e elapsed, mem1)

/-! ### Memory operation language (for the long-term-growth invariant)

Every public `MemoryManager` operation, with its environment inputs
(ids, clocks) made explicit. -/

inductive MemOp where
  | addSession (message : Message)
  | getHistory
  | getRecent (count : Nat)
  | clearSess (newSid : String)
  | addLongTerm (content : String) (topics : List String) (newId : String) (now : Int)
  | searchOp (query : String) (timeframe : Option String) (keywords : List String)
      (maxResults : Nat) (now : Int)
  | summary

/-- The state effect of one operation.  `getSessionHistory`,
`getRecentHistory`, `search` and `getSummary` only read the state: the
source builds fresh arrays (`[...]`, `map`, `filter`, `slice`) and
never reassigns `this.longTermMemory` in them. -/
def stepOp (op : MemOp) (s : MemoryState) : MemoryState :=
  match op with
  | .addSession m => addToSession s m
  | .getHistory => s
  | .getRecent _ => s
  | .clearSess newSid => clearSession s newSid
  | .addLongTerm content topics newId now =>
    (addToLongTermMemory s content topics newId now).2
  | .searchOp _ _ _ _ _ => s
  | .summary => s

/-- A sequence of `MemoryManager` operations, applied in order. -/
def runOps (ops : List MemOp) (s : MemoryState) : MemoryState :=
  ops.foldl (fun st op => stepOp op st) s

/-! ### Concrete instances used by the verification -/

/-- The spec's multi-tool example message. -/
def multiToolMsg : Message :=
  mkUserMessage "What did we discuss about how to design caching?" "m1" 0

/-- The spec's end-to-end scenario 2 message. -/
def cachingMsg : Message :=
  mkUserMessage "How do I implement caching in TypeScript?" "m1" 0

/-- A memory state with six long-term entries (the four mock entries
plus two more). -/
def sixEntryState : MemoryState :=
  (addToLongTermMemory
    (addToLongTermMemory (mkMemoryManager 0 "s") "extra entry one" ["alpha"] "mem_5" 0).2
    "extra entry two" ["beta"] "mem_6" 0).2

/-- The mock store after adding an entry with content `"hi"` and topic
`"ai"`. -/
def aiTopicState : MemoryState :=
  (addToLongTermMemory (mkMemoryManager 0 "s") "hi" ["ai"] "memX" 0).2

/-- A tool whose `execute` always rejects. -/
def boomTool : Tool :=
  { name := "boom", description := "always rejects",
    execute := fun _ => Except.error "kaboom",
    formatOutput := fun _ => "" }

/-- A tool whose `execute` always succeeds. -/
def steadyTool : Tool :=
  { name := "steady", description := "always succeeds",
    execute := fun _ =>
      Except.ok { toolName := "steady", success := true,
                  data := none, executionTime := 0 },
    formatOutput := fun _ => "" }

/-- `boomTool` repaired: same name, but its `execute` succeeds. -/
def fixedBoomTool : Tool :=
  { name := "boom", description := "repaired",
    execute := fun _ =>
      Except.ok { toolName := "boom", success := true,
                  data := none, executionTime := 0 },
    formatOutput := fun _ => "" }

/-- A registry holding the rejecting tool and a healthy sibling. -/
def throwingRegistry : ToolRegistry :=
  [("boom", boomTool), ("steady", steadyTool)]

/-- The same registry with the rejecting tool repaired. -/
def repairedRegistry : ToolRegistry :=
  [("boom", fixedBoomTool), ("steady", steadyTool)]

/-- Inputs requesting both tools. -/
def twoToolInputs : List (String × ToolInput) :=
  [("boom", {}), ("steady", {})]

/-! ### Helper lemmas -/

theorem str_data_append (a b : String) : (a ++ b).data = a.data ++ b.data := rfl

theorem listContains_append_right (xs ys pat : List Char)
    (h : listContains ys pat = true) : listContains (xs ++ ys) pat = true := by
  induction xs with
  | nil => simpa using h
  | cons x xs ih =>
    show listContains (x :: (xs ++ ys)) pat = true
    unfold listContains
    simp only [Bool.or_eq_true]
    exact Or.inr ih

theorem insertByDesc_of_const {α : Type} (key : α → ℚ) (c : ℚ) (x : α) (l : List α)
    (hx : key x = c) (hl : ∀ y ∈ l, key y = c) :
    insertByDesc key x l = l ++ [x] := by
  induction l with
  | nil => rfl
  | cons y ys ih =>
    have hy : key y = c := hl y (List.mem_cons_self y ys)
    have hnot : ¬ key y < key x := by rw [hx, hy]; exact lt_irrefl c
    simp only [insertByDesc, if_neg hnot]
    rw [ih (fun z hz => hl z (List.mem_cons_of_mem y hz))]
    rfl

theorem sortByDesc_go_const {α : Type} (key : α → ℚ) (c : ℚ) :
    ∀ (l acc : List α), (∀ y ∈ l, key y = c) → (∀ y ∈ acc, key y = c) →
      l.foldl (fun a x => insertByDesc key x a) acc = acc ++ l
  | [], acc, _, _ => by simp
  | x :: xs, acc, hl, hacc => by
    have hx : key x = c := hl x (List.mem_cons_self x xs)
    show xs.foldl (fun a y => insertByDesc key y a) (insertByDesc key x acc) = acc ++ x :: xs
    rw [insertByDesc_of_const key c x acc hx hacc]
    rw [sortByDesc_go_const key c xs (acc ++ [x])
        (fun z hz => hl z (List.mem_cons_of_mem x hz))
        (fun z hz => by
          rcases List.mem_append.mp hz with h1 | h1
          · exact hacc z h1
          · rw [List.mem_singleton.mp h1]; exact hx)]
    simp

theorem sortByDesc_of_const {α : Type} (key : α → ℚ) (c : ℚ) (l : List α)
    (hl : ∀ y ∈ l, key y = c) : sortByDesc key l = l := by
  unfold sortByDesc
  rw [sortByDesc_go_const key c l [] hl (by simp)]
  rfl

theorem mem_insertByDesc {α : Type} (key : α → ℚ) (x a : α) (l : List α) :
    a ∈ insertByDesc key x l ↔ a = x ∨ a ∈ l := by
  induction l with
  | nil => simp [insertByDesc]
  | cons y ys ih =>
    by_cases h : key y < key x
    · simp only [insertByDesc, if_pos h, List.mem_cons]
    · simp only [insertByDesc, if_neg h, List.mem_cons, ih]
      tauto

theorem mem_sortByDesc_go {α : Type} (key : α → ℚ) (a : α) (l acc : List α) :
    a ∈ l.foldl (fun ac x => insertByDesc key x ac) acc ↔ a ∈ acc ∨ a ∈ l := by
  induction l generalizing acc with
  | nil => simp
  | cons x xs ih =>
    show a ∈ xs.foldl (fun ac y => insertByDesc key y ac) (insertByDesc key x acc) ↔ _
    rw [ih]
    rw [mem_insertByDesc]
    simp only [List.mem_cons]
    tauto

theorem mem_sortByDesc {α : Type} (key : α → ℚ) (a : α) (l : List α) :
    a ∈ sortByDesc key l ↔ a ∈ l := by
  unfold sortByDesc
  rw [mem_sortByDesc_go]
  simp

theorem length_insertByDesc {α : Type} (key : α → ℚ) (x : α) (l : List α) :
    (insertByDesc key x l).length = l.length + 1 := by
  induction l with
  | nil => rfl
  | cons y ys ih =>
    by_cases h : key y < key x
    · simp [insertByDesc, if_pos h]
    · simp [insertByDesc, if_neg h, ih]

theorem length_sortByDesc_go {α : Type} (key : α → ℚ) (l acc : List α) :
    (l.foldl (fun ac x => insertByDesc key x ac) acc).length = acc.length + l.length := by
  induction l generalizing acc with
  | nil => simp
  | cons x xs ih =>
    show (xs.foldl (fun ac y => insertByDesc key y ac) (insertByDesc key x acc)).length = _
    rw [ih, length_insertByDesc]
    simp [Nat.add_comm, Nat.add_assoc, Nat.add_left_comm]

theorem length_sortByDesc {α : Type} (key : α → ℚ) (l : List α) :
    (sortByDesc key l).length = l.length := by
  unfold sortByDesc
  rw [length_sortByDesc_go]
  simp

theorem join_go_data (l : List String) (acc : String) :
    (l.foldl (fun r s => r ++ s) acc).data = acc.data ++ (l.map String.data).flatten := by
  induction l generalizing acc with
  | nil => simp
  | cons x xs ih =>
    show (xs.foldl (fun r s => r ++ s) (acc ++ x)).data = _
    rw [ih, str_data_append]
    simp

theorem join_data (l : List String) :
    (String.join l).data = (l.map String.data).flatten := by
  show (l.foldl (fun r s => r ++ s) "").data = _
  rw [join_go_data]
  rfl

theorem append_left_ne_of_take_ne (p q x y : String)
    (h : List.take (min p.data.length q.data.length) p.data ≠
         List.take (min p.data.length q.data.length) q.data) :
    p ++ x ≠ q ++ y := by
  intro heq
  apply h
  have hd : p.data ++ x.data = q.data ++ y.data := by
    rw [← str_data_append, ← str_data_append, heq]
  have h1 : List.take (min p.data.length q.data.length) (p.data ++ x.data) =
      List.take (min p.data.length q.data.length) p.data :=
    List.take_append_of_le_length (min_le_left _ _)
  have h2 : List.take (min p.data.length q.data.length) (q.data ++ y.data) =
      List.take (min p.data.length q.data.length) q.data :=
    List.take_append_of_le_length (min_le_right _ _)
  rw [← h1, hd, h2]

theorem recent_ne_intent (a b : String) : recentHeader ++ a ≠ intentHeader ++ b :=
  append_left_ne_of_take_ne _ _ _ _ (by decide)

theorem recent_ne_retrieved (a b : String) : recentHeader ++ a ≠ retrievedHeader ++ b :=
  append_left_ne_of_take_ne _ _ _ _ (by decide)

theorem recent_ne_current (a b : String) : recentHeader ++ a ≠ currentHeader ++ b :=
  append_left_ne_of_take_ne _ _ _ _ (by decide)

theorem historyBlock_data (m : Message) :
    (historyBlock m).data =
      ("\n[" ++ dateString m.timestamp ++ "] " ++
        capitalizeFirst (roleStr m.role) ++ ":\n").data ++
      (truncateContent m.content 200).data ++ "\n".data := by
  simp [historyBlock, str_data_append, List.append_assoc]

theorem join_blocks_surrounds (m : Message) (l : List Message) (hm : m ∈ l) :
    ∃ pre post : List Char,
      (String.join (l.map historyBlock)).data =
        pre ++ (truncateContent m.content 200).data ++ post := by
  obtain ⟨s1, s2, rfl⟩ := List.append_of_mem hm
  rw [join_data]
  rw [List.map_append, List.map_append, List.flatten_append]
  simp only [List.map_cons, List.flatten_cons]
  rw [historyBlock_data]
  refine ⟨((s1.map historyBlock).map String.data).flatten ++
      ("\n[" ++ dateString m.timestamp ++ "] " ++
        capitalizeFirst (roleStr m.role) ++ ":\n").data,
    "\n".data ++ ((s2.map historyBlock).map String.data).flatten, ?_⟩
  simp [List.append_assoc]

/-! ### Claim theorems -/

/-- C10: for every search call, `totalFound` equals the length of the
returned entries after the `maxResults` cap (so it is at most
`maxResults`), not the pre-cap match count. -/
theorem searchMemory_totalFound_is_capped_length (s : MemoryState) (q : String)
    (tf : Option String) (kws : List String) (maxR : Nat) (now : Int) :
    (searchMemory s q tf kws maxR now).totalFound =
      (searchMemory s q tf kws maxR now).entries.length ∧
    (searchMemory s q tf kws maxR now).totalFound ≤ maxR := by
  refine ⟨rfl, ?_⟩
  show (List.take maxR _).length ≤ maxR
  rw [List.length_take]
  exact min_le_left _ _

/-- C9: long-term memory grows monotonically: any sequence of
`MemoryManager` operations only ever appends to the long-term entry
collection (a prefix is preserved, so no entry is removed or mutated);
in particular `clearSession` leaves it unchanged and
`addToLongTermMemory` appends exactly the returned entry. -/
theorem longTermMemory_monotone (ops : List MemOp) (s : MemoryState) :
    (∃ suffix, (runOps ops s).longTermMemory = s.longTermMemory ++ suffix) ∧
    (∀ newSid, (clearSession s newSid).longTermMemory = s.longTermMemory) ∧
    (∀ content topics newId now,
      ((addToLongTermMemory s content topics newId now).2).longTermMemory =
        s.longTermMemory ++ [(addToLongTermMemory s content topics newId now).1]) := by
  refine ⟨?_, fun _ => rfl, fun _ _ _ _ => rfl⟩
  induction ops generalizing s with
  | nil => exact ⟨[], by simp [runOps]⟩
  | cons op rest ih =>
    obtain ⟨sfx, hs⟩ := ih (stepOp op s)
    have hstep : ∃ d, (stepOp op s).longTermMemory = s.longTermMemory ++ d := by
      cases op with
      | addSession m => exact ⟨[], by simp [stepOp, addToSession]⟩
      | getHistory => exact ⟨[], by simp [stepOp]⟩
      | getRecent c => exact ⟨[], by simp [stepOp]⟩
      | clearSess sid => exact ⟨[], by simp [stepOp, clearSession]⟩
      | addLongTerm c t i n => exact ⟨_, rfl⟩
      | searchOp q tf k mr n => exact ⟨[], by simp [stepOp]⟩
      | summary => exact ⟨[], by simp [stepOp]⟩
    obtain ⟨d, hd⟩ := hstep
    refine ⟨d ++ sfx, ?_⟩
    have hrun : runOps (op :: rest) s = runOps rest (stepOp op s) := rfl
    rw [hrun, hs, hd, List.append_assoc]

/-- C6: executing an unregistered tool name returns a failure result
with `success = false`, `data = null`, an error containing
`"not found"` and a recorded execution time, and never throws (the
embedding is a total function). -/
theorem executeSingle_unregistered (reg : ToolRegistry) (toolName : String)
    (input : ToolInput) (h : List.lookup toolName reg = none) :
    executeSingle reg toolName input =
      { toolName := toolName, success := false, data := none,
        error := some ("Tool \x27" ++ toolName ++ "\x27 not found in registry"),
        executionTime := 0 } ∧
    containsSubstr ("Tool \x27" ++ toolName ++ "\x27 not found in registry")
      "not found" = true := by
  constructor
  · simp [executeSingle, h]
  · unfold containsSubstr
    rw [str_data_append]
    exact listContains_append_right _ _ _ (by decide)

/-- Witness for C6 at the concrete unregistered name `"missing_tool"`
against the fully initialized registry. -/
theorem executeSingle_unregistered_witness :
    executeSingle (setupTools (mkMemoryManager 0 "s") 0) "missing_tool" {} =
      { toolName := "missing_tool", success := false, data := none,
        error := some ("Tool \x27" ++ "missing_tool" ++ "\x27 not found in registry"),
        executionTime := 0 } ∧
    containsSubstr ("Tool \x27" ++ "missing_tool" ++ "\x27 not found in registry")
      "not found" = true :=
  executeSingle_unregistered (setupTools (mkMemoryManager 0 "s") 0) "missing_tool" {} rfl

/-- C3: a message whose lowercased content matches both a
memory-reference pattern and a knowledge-seeking pattern routes to
`multi_tool` with exactly `memory_recall` and `knowledge_search`
selected (both present in `toolInputs`) and confidence exactly `0.85`,
regardless of the history argument. -/
theorem route_multiTool_both_patterns (m : Message) (history history2 : List Message)
    (hmem : matchesPatterns (jsToLower m.content) MEMORY_PATTERNS = true)
    (hknow : matchesPatterns (jsToLower m.content) KNOWLEDGE_PATTERNS = true) :
    (route m history).intent = IntentType.multi_tool ∧
    (route m history).selectedTools = ["memory_recall", "knowledge_search"] ∧
    (List.lookup "memory_recall" (route m history).toolInputs).isSome = true ∧
    (List.lookup "knowledge_search" (route m history).toolInputs).isSome = true ∧
    (route m history).confidence = 0.85 ∧
    route m history = route m history2 := by
  have hr : ∀ h : List Message, route m h =
      { intent := .multi_tool, confidence := 0.85,
        selectedTools := ["memory_recall", "knowledge_search"],
        toolInputs := [("memory_recall", extractMemoryInput m),
                       ("knowledge_search", extractKnowledgeInput m)],
        reasoning := "User query requires both memory recall and knowledge retrieval" } := by
    intro h
    simp only [route, checkMultiTool, hmem, hknow, Bool.and_self, if_true]
  rw [hr history, hr history2]
  exact ⟨rfl, rfl, rfl, rfl, rfl, rfl⟩

/-- Witness for C3 at the spec's example message, with two different
history arguments. -/
theorem route_multiTool_witness :
    (route multiToolMsg []).intent = IntentType.multi_tool ∧
    (route multiToolMsg []).selectedTools = ["memory_recall", "knowledge_search"] ∧
    (List.lookup "memory_recall" (route multiToolMsg []).toolInputs).isSome = true ∧
    (List.lookup "knowledge_search" (route multiToolMsg []).toolInputs).isSome = true ∧
    (route multiToolMsg []).confidence = 0.85 ∧
    route multiToolMsg [] = route multiToolMsg [multiToolMsg] :=
  route_multiTool_both_patterns multiToolMsg [] [multiToolMsg] (by decide) (by decide)

/-- C4 counterexample: with six long-term entries, a keyword-free
search does not return every entry — the `maxResults` cap (default 5)
drops one. -/
theorem searchMemory_not_all_entries :
    extractQueryKeywords "the" = [] ∧
    sixEntryState.longTermMemory.length = 6 ∧
    (searchMemory sixEntryState "the" none [] 5 0).entries.length = 5 := by
  refine ⟨by decide, by decide, by with_unfolding_all decide⟩

/-- C4 amended: a search with `keywords = []`, no timeframe and a query
yielding no keywords returns the first `maxResults` (default 5)
long-term entries — all of them only when the store holds at most 5 —
each with relevance score exactly `0.1`, in insertion order (the stable
sort keeps the original order among equal scores). -/
theorem searchMemory_no_keywords_flat (s : MemoryState) (q : String) (now : Int)
    (h : extractQueryKeywords q = []) :
    (searchMemory s q none [] 5 now).entries =
      (s.longTermMemory.map
        (fun e => { e with relevanceScore := some (0.1 : ℚ) })).take 5 ∧
    (searchMemory s q none [] 5 now).totalFound = min 5 s.longTermMemory.length := by
  have hscore : ∀ e : MemoryEntry,
      calculateRelevance e (extractQueryKeywords q ++ []) = 0.1 := by
    intro e
    rw [List.append_nil, h]
    simp [calculateRelevance]
  have hmap : s.longTermMemory.map
      (fun entry => { entry with
        relevanceScore := some (calculateRelevance entry (extractQueryKeywords q ++ [])) }) =
      s.longTermMemory.map (fun e => { e with relevanceScore := some (0.1 : ℚ) }) :=
    List.map_congr_left (fun a _ => by rw [hscore])
  have hfilter : (s.longTermMemory.map
      (fun e => { e with relevanceScore := some (0.1 : ℚ) })).filter
        (fun e => 0 < e.relevanceScore.getD 0) =
      s.longTermMemory.map (fun e => { e with relevanceScore := some (0.1 : ℚ) }) := by
    apply List.filter_eq_self.mpr
    intro a ha
    obtain ⟨x, _, rfl⟩ := List.mem_map.mp ha
    show decide ((0 : ℚ) < (some (0.1 : ℚ)).getD 0) = true
    with_unfolding_all decide
  have hsort : sortByDesc (fun e => e.relevanceScore.getD 0)
      (s.longTermMemory.map (fun e => { e with relevanceScore := some (0.1 : ℚ) })) =
      s.longTermMemory.map (fun e => { e with relevanceScore := some (0.1 : ℚ) }) := by
    apply sortByDesc_of_const _ (0.1 : ℚ)
    intro y hy
    obtain ⟨x, _, rfl⟩ := List.mem_map.mp hy
    rfl
  have hsearch : searchMemory s q none [] 5 now =
      { entries := (s.longTermMemory.map
          (fun e => { e with relevanceScore := some (0.1 : ℚ) })).take 5,
        totalFound := ((s.longTermMemory.map
          (fun e => { e with relevanceScore := some (0.1 : ℚ) })).take 5).length,
        searchQuery := q } := by
    unfold searchMemory
    simp only [filterByTimeframe]
    rw [hmap, hfilter, hsort]
  refine ⟨by rw [hsearch], ?_⟩
  rw [hsearch]
  simp only [List.length_take, List.length_map]

/-- Witness for C4 amended: the mock store (four entries) and the
keyword-free query `"the"`. -/
theorem searchMemory_no_keywords_flat_witness :
    (searchMemory (mkMemoryManager 0 "s") "the" none [] 5 0).entries =
      ((mkMemoryManager 0 "s").longTermMemory.map
        (fun e => { e with relevanceScore := some (0.1 : ℚ) })).take 5 ∧
    (searchMemory (mkMemoryManager 0 "s") "the" none [] 5 0).totalFound =
      min 5 (mkMemoryManager 0 "s").longTermMemory.length :=
  searchMemory_no_keywords_flat (mkMemoryManager 0 "s") "the" 0 (by decide)

/-- C2: `executeMultiple` returns one `ToolResult` per requested name
and never rejects (it is a total function); a tool whose `execute`
rejects yields a `success = false`, `data = null` result carrying the
error message, and every sibling's result is exactly what it would be
in a registry where that tool does not reject. -/
theorem executeMultiple_isolates_failures
    (reg regOk : ToolRegistry) (toolInputs : List (String × ToolInput))
    (t : String) (tool : Tool) (e : String)
    (hreg : List.lookup t reg = some tool)
    (hthrow : ∀ p ∈ toolInputs, p.1 = t → tool.execute p.2 = Except.error e)
    (hagree : ∀ n, n ≠ t → List.lookup n reg = List.lookup n regOk) :
    (executeMultiple reg toolInputs).length = toolInputs.length ∧
    executeMultiple reg toolInputs = toolInputs.map (fun p =>
      if p.1 = t then
        { toolName := t, success := false, data := none,
          error := some e, executionTime := 0 }
      else executeSingle regOk p.1 p.2) := by
  constructor
  · simp [executeMultiple]
  · unfold executeMultiple
    apply List.map_congr_left
    intro p hp
    by_cases hpt : p.1 = t
    · rw [if_pos hpt, hpt]
      simp only [executeSingle, hreg, hthrow p hp hpt]
    · rw [if_neg hpt]
      unfold executeSingle
      rw [hagree p.1 hpt]

/-- Witness for C2: a registry with a rejecting tool `"boom"` and a
healthy sibling `"steady"`, compared with the repaired registry. -/
theorem executeMultiple_isolates_failures_witness :
    (executeMultiple throwingRegistry twoToolInputs).length = twoToolInputs.length ∧
    executeMultiple throwingRegistry twoToolInputs = twoToolInputs.map (fun p =>
      if p.1 = "boom" then
        { toolName := "boom", success := false, data := none,
          error := some "kaboom", executionTime := 0 }
      else executeSingle repairedRegistry p.1 p.2) :=
  executeMultiple_isolates_failures throwingRegistry repairedRegistry twoToolInputs
    "boom" boomTool "kaboom" rfl
    (by
      intro p hp hpb
      rcases List.mem_cons.mp hp with rfl | hp2
      · rfl
      · rcases List.mem_cons.mp hp2 with rfl | h3
        · exact absurd hpb (by decide)
        · exact absurd h3 (List.not_mem_nil _))
    (by
      intro n hn
      have hb : (n == "boom") = false := beq_eq_false_iff_ne.mpr hn
      show List.lookup n throwingRegistry = List.lookup n repairedRegistry
      simp only [throwingRegistry, repairedRegistry, List.lookup, hb])

/-- C7 counterexample: the query `"details about ai"` contains the
stored topic `"ai"` as a substring, yet the stored entry is not
returned at all — keyword extraction drops `"ai"` (too short) and the
surviving keyword `"details"` matches neither content nor topics, so
the entry scores `0` and is filtered out. -/
theorem roundtrip_substring_fails :
    containsSubstr "details about ai" "ai" = true ∧
    (searchMemory aiTopicState "details about ai" none [] 5 0).entries = [] := by
  refine ⟨by decide, by with_unfolding_all decide⟩

theorem mem_searchMemory_entries (s : MemoryState) (q : String) (now : Int)
    (x : MemoryEntry) (hx : x ∈ s.longTermMemory)
    (hpos : 0 < calculateRelevance x (extractQueryKeywords q ++ []))
    (hlen : s.longTermMemory.length ≤ 5) :
    ({ x with
        relevanceScore := some (calculateRelevance x (extractQueryKeywords q ++ [])) }) ∈
      (searchMemory s q none [] 5 now).entries := by
  simp only [searchMemory, filterByTimeframe]
  have hle : (sortByDesc (fun e => e.relevanceScore.getD 0)
      ((s.longTermMemory.map (fun entry => { entry with
        relevanceScore := some (calculateRelevance entry (extractQueryKeywords q ++ [])) })).filter
        (fun (e : MemoryEntry) => decide (0 < e.relevanceScore.getD 0)))).length ≤ 5 := by
    rw [length_sortByDesc]
    calc ((s.longTermMemory.map (fun entry => { entry with
            relevanceScore := some (calculateRelevance entry (extractQueryKeywords q ++ [])) })).filter
            (fun (e : MemoryEntry) => decide (0 < e.relevanceScore.getD 0))).length
        ≤ (s.longTermMemory.map (fun entry => { entry with
            relevanceScore := some (calculateRelevance entry (extractQueryKeywords q ++ [])) })).length :=
          List.length_filter_le _ _
      _ = s.longTermMemory.length := List.length_map _ _
      _ ≤ 5 := hlen
  rw [List.take_of_length_le hle]
  apply (mem_sortByDesc _ _ _).mpr
  apply List.mem_filter.mpr
  refine ⟨List.mem_map_of_mem _ hx, decide_eq_true ?_⟩
  exact hpos

/-- C7 amended: after `addToLongTermMemory(content, topics)`, a search
whose query yields an extracted keyword occurring (case-insensitively)
inside one of the entry's topics gives the new entry a strictly
positive relevance score, and — provided the store after insertion
holds at most `maxResults` (5) entries, so the cap cannot drop it —
returns the entry among the results with that positive score. -/
theorem addToLongTermMemory_search_roundtrip
    (s : MemoryState) (content : String) (topics : List String) (q : String)
    (newId : String) (ts : Int) (t kw : String) (now : Int)
    (ht : t ∈ topics) (hkw : kw ∈ extractQueryKeywords q)
    (hocc : containsSubstr (jsToLower t) (jsToLower kw) = true)
    (hlen : ((addToLongTermMemory s content topics newId ts).2).longTermMemory.length ≤ 5) :
    0 < calculateRelevance (addToLongTermMemory s content topics newId ts).1
        (extractQueryKeywords q) ∧
    ∃ entry ∈ (searchMemory (addToLongTermMemory s content topics newId ts).2 q
        none [] 5 now).entries,
      entry.id = newId ∧ entry.content = content ∧ entry.topics = topics ∧
      ∃ sc : ℚ, entry.relevanceScore = some sc ∧ 0 < sc := by
  have hne : extractQueryKeywords q ≠ [] := List.ne_nil_of_mem hkw
  have hscorekw : 2 ≤ keywordScore (addToLongTermMemory s content topics newId ts).1 kw := by
    show 2 ≤ (if containsSubstr (jsToLower content) (jsToLower kw) then 1 else 0) +
      (if (topics.map jsToLower).any
        (fun topic => containsSubstr topic (jsToLower kw)) then 2 else 0)
    have hany : (topics.map jsToLower).any
        (fun topic => containsSubstr topic (jsToLower kw)) = true := by
      apply List.any_eq_true.mpr
      exact ⟨jsToLower t, List.mem_map_of_mem _ ht, hocc⟩
    rw [hany]
    simp
  have hsum : 0 < ((extractQueryKeywords q).map
      (keywordScore (addToLongTermMemory s content topics newId ts).1)).sum := by
    have hmem : keywordScore (addToLongTermMemory s content topics newId ts).1 kw ∈
        (extractQueryKeywords q).map
          (keywordScore (addToLongTermMemory s content topics newId ts).1) :=
      List.mem_map_of_mem _ hkw
    have := List.single_le_sum (fun x _ => Nat.zero_le x) _ hmem
    omega
  have hpos : 0 < calculateRelevance (addToLongTermMemory s content topics newId ts).1
      (extractQueryKeywords q) := by
    unfold calculateRelevance
    rw [if_neg (by simpa [List.isEmpty_iff] using hne)]
    apply div_pos
    · exact_mod_cast hsum
    · exact_mod_cast List.length_pos.mpr hne
  refine ⟨hpos, ?_⟩
  have hpos2 : 0 < calculateRelevance (addToLongTermMemory s content topics newId ts).1
      (extractQueryKeywords q ++ []) := by rwa [List.append_nil]
  have hmem0 : (addToLongTermMemory s content topics newId ts).1 ∈
      ((addToLongTermMemory s content topics newId ts).2).longTermMemory := by
    show (addToLongTermMemory s content topics newId ts).1 ∈
      s.longTermMemory ++ [(addToLongTermMemory s content topics newId ts).1]
    exact List.mem_append_right _ (List.mem_singleton.mpr rfl)
  refine ⟨({ (addToLongTermMemory s content topics newId ts).1 with
      relevanceScore := some (calculateRelevance (addToLongTermMemory s content topics newId ts).1 (extractQueryKeywords q ++ [])) }),
    mem_searchMemory_entries _ q now _ hmem0 hpos2 hlen, rfl, rfl, rfl,
    calculateRelevance (addToLongTermMemory s content topics newId ts).1
      (extractQueryKeywords q ++ []), rfl, hpos2⟩

/-- Witness for C7 amended: topic `"trains"` is extracted verbatim from
the query `"tell me about trains"` against the four-entry mock store. -/
theorem addToLongTermMemory_search_roundtrip_witness :
    0 < calculateRelevance
        (addToLongTermMemory (mkMemoryManager 0 "s") "I like trains" ["trains"] "memY" 0).1
        (extractQueryKeywords "tell me about trains") ∧
    ∃ entry ∈ (searchMemory
        (addToLongTermMemory (mkMemoryManager 0 "s") "I like trains" ["trains"] "memY" 0).2
        "tell me about trains" none [] 5 0).entries,
      entry.id = "memY" ∧ entry.content = "I like trains" ∧ entry.topics = ["trains"] ∧
      ∃ sc : ℚ, entry.relevanceScore = some sc ∧ 0 < sc :=
  addToLongTermMemory_search_roundtrip (mkMemoryManager 0 "s") "I like trains"
    ["trains"] "tell me about trains" "memY" 0 "trains" "trains" 0
    (by decide) (by decide) (by decide) (by decide)

/-- C8: with non-empty history, the formatted context contains the
recent-conversation section exactly when the intent is
`clarification_needed`, `conversation` or `memory_access`; each of the
(at most six) history messages rendered there appears with its content
truncated by `truncateContent` at the fixed cap of 200 characters —
unchanged when it is at most 200 characters long, else cut to its first
200 characters plus an ellipsis. -/
theorem formattedContext_history_section (reg : ToolRegistry) (userMessage : Message)
    (history : List Message) (routingDecision : RoutingDecision)
    (toolResults : List ToolResult) (hne : history ≠ []) :
    ((formatHistorySection history ∈
        formatContextSections reg userMessage history routingDecision toolResults) ↔
      (routingDecision.intent = .clarification_needed ∨
       routingDecision.intent = .conversation ∨
       routingDecision.intent = .memory_access)) ∧
    (∀ m ∈ lastN 6 history, ∃ pre post : List Char,
      (formatHistorySection history).data =
        pre ++ (truncateContent m.content 200).data ++ post) ∧
    (∀ c : String,
      (c.length ≤ 200 → truncateContent c 200 = c) ∧
      (200 < c.length → truncateContent c 200 = c.take 200 ++ "...")) := by
  refine ⟨?_, ?_, ?_⟩
  · have h0 : (decide (history.length > 0)) = true :=
      decide_eq_true (List.length_pos.mpr hne)
    have hintent : needsConversationContext routingDecision = true ↔
        (routingDecision.intent = .clarification_needed ∨
         routingDecision.intent = .conversation ∨
         routingDecision.intent = .memory_access) := by
      simp only [needsConversationContext, Bool.or_eq_true, decide_eq_true_eq]
      tauto
    constructor
    · intro hmem
      by_cases hcond : needsConversationContext routingDecision = true
      · exact hintent.mp hcond
      · exfalso
        have hcond2 : needsConversationContext routingDecision = false :=
          Bool.not_eq_true _ ▸ Bool.of_not_eq_true hcond
        have hsec : formatContextSections reg userMessage history routingDecision
            toolResults =
            [formatIntentSection routingDecision] ++
            (if toolResults.length > 0 then [formatToolResultsSection reg toolResults]
             else []) ++
            [formatCurrentQuerySection userMessage] := by
          unfold formatContextSections
          rw [hcond2]
          simp
        rw [hsec] at hmem
        rcases List.mem_append.mp hmem with h1 | h2
        · rcases List.mem_append.mp h1 with h3 | h4
          · exact recent_ne_intent _ _ (List.mem_singleton.mp h3)
          · by_cases htr : toolResults.length > 0
            · rw [if_pos htr] at h4
              exact recent_ne_retrieved _ _ (List.mem_singleton.mp h4)
            · rw [if_neg htr] at h4
              exact List.not_mem_nil _ h4
        · exact recent_ne_current _ _ (List.mem_singleton.mp h2)
    · intro hint
      have hcond : needsConversationContext routingDecision = true := hintent.mpr hint
      unfold formatContextSections
      rw [hcond, h0]
      simp
  · intro m hm
    have hblocks := join_blocks_surrounds m (lastN 6 history) hm
    obtain ⟨pre, post, hpre⟩ := hblocks
    refine ⟨recentHeader.data ++ pre, post, ?_⟩
    show (recentHeader ++ String.join ((lastN 6 history).map historyBlock)).data = _
    rw [str_data_append, hpre]
    simp [List.append_assoc]
  · intro c
    constructor
    · intro h
      simp [truncateContent, h]
    · intro h
      have : ¬ c.length ≤ 200 := Nat.not_le.mpr h
      simp [truncateContent, this]

/-- Witness for C8: a one-message history with a conversation intent
and no tool results, against the empty registry. -/
theorem formattedContext_history_section_witness :
    ((formatHistorySection [mkUserMessage "hey there" "h1" 0] ∈
        formatContextSections [] (mkUserMessage "hi" "u1" 0)
          [mkUserMessage "hey there" "h1" 0] createConversationDecision []) ↔
      (createConversationDecision.intent = .clarification_needed ∨
       createConversationDecision.intent = .conversation ∨
       createConversationDecision.intent = .memory_access)) ∧
    (∀ m ∈ lastN 6 [mkUserMessage "hey there" "h1" 0], ∃ pre post : List Char,
      (formatHistorySection [mkUserMessage "hey there" "h1" 0]).data =
        pre ++ (truncateContent m.content 200).data ++ post) ∧
    (∀ c : String,
      (c.length ≤ 200 → truncateContent c 200 = c) ∧
      (200 < c.length → truncateContent c 200 = c.take 200 ++ "...")) :=
  formattedContext_history_section [] (mkUserMessage "hi" "u1" 0)
    [mkUserMessage "hey there" "h1" 0] createConversationDecision [] (by decide)

/-- C1: `processMessage` is a total function (it never throws); when
the pipeline body rejects with message `e`, the returned
`PipelineResult` has `success = false`, the fixed apologetic response
content, the underlying error message in `error`, and the recorded
total execution time. -/
theorem processMessage_absorbs_failure
    (genResponse : ContextFrame → Except String AgentResponse)
    (reg : ToolRegistry) (mem : MemoryState) (userInput : String)
    (msgId asstId memId : String) (now : Int) (elapsed : Nat) (e : String)
    (h : pipelineBody genResponse reg
        (addToSession mem (mkUserMessage userInput msgId now))
        (mkUserMessage userInput msgId now) asstId memId now elapsed =
      Except.error e) :
    processMessage genResponse reg mem userInput msgId asstId memId now elapsed =
      (pipelineFailureResult e elapsed,
       addToSession mem (mkUserMessage userInput msgId now)) ∧
    (pipelineFailureResult e elapsed).success = false ∧
    (pipelineFailureResult e elapsed).response.content =
      "I apologize, but I encountered an issue processing your request. Could you try rephrasing that?" ∧
    (pipelineFailureResult e elapsed).error = some e ∧
    (pipelineFailureResult e elapsed).totalExecutionTime = elapsed := by
  refine ⟨?_, rfl, rfl, rfl, rfl⟩
  show (match pipelineBody genResponse reg
      (addToSession mem (mkUserMessage userInput msgId now))
      (mkUserMessage userInput msgId now) asstId memId now elapsed with
    | Except.ok r => r
    | Except.error e2 =>
      (pipelineFailureResult e2 elapsed,
       addToSession mem (mkUserMessage userInput msgId now))) =
    (pipelineFailureResult e elapsed,
     addToSession mem (mkUserMessage userInput msgId now))
  rw [h]

/-- Witness for C1: a response collaborator that always rejects with
`"boom"`, over the empty registry and the mock memory store. -/
theorem processMessage_absorbs_failure_witness :
    processMessage (fun _ => Except.error "boom") [] (mkMemoryManager 0 "s")
        "hello" "m1" "a1" "lt1" 0 7 =
      (pipelineFailureResult "boom" 7,
       addToSession (mkMemoryManager 0 "s") (mkUserMessage "hello" "m1" 0)) ∧
    (pipelineFailureResult "boom" 7).success = false ∧
    (pipelineFailureResult "boom" 7).response.content =
      "I apologize, but I encountered an issue processing your request. Could you try rephrasing that?" ∧
    (pipelineFailureResult "boom" 7).error = some "boom" ∧
    (pipelineFailureResult "boom" 7).totalExecutionTime = 7 :=
  processMessage_absorbs_failure (fun _ => Except.error "boom") [] (mkMemoryManager 0 "s")
    "hello" "m1" "a1" "lt1" 0 7 "boom" rfl

/-- C5 counterexample: for `"How do I implement caching in TypeScript?"`
the router does route to `knowledge_retrieval` with `knowledge_search`,
but the tool input's category is `none`, not `"programming"` — the
category regex (`code|programming|function|api`) matches nothing in the
message. -/
theorem knowledge_category_not_programming :
    (route cachingMsg []).intent = IntentType.knowledge_retrieval ∧
    List.lookup "knowledge_search" (route cachingMsg []).toolInputs =
      some (extractKnowledgeInput cachingMsg) ∧
    (extractKnowledgeInput cachingMsg).category = none := by
  refine ⟨by decide, by decide, by decide⟩

/-- C5 amended: the input `"How do I implement caching in TypeScript?"`
with empty history routes to `knowledge_retrieval`, executes the single
tool `knowledge_search` with no category in its input (so all
categories are searched), returns exactly one tool result, and at least
one returned knowledge item contains `"TypeScript"` or `"caching"`. -/
theorem caching_scenario_end_to_end :
    (route cachingMsg []).intent = IntentType.knowledge_retrieval ∧
    (route cachingMsg []).selectedTools = ["knowledge_search"] ∧
    ((List.lookup "knowledge_search" (route cachingMsg []).toolInputs).map
      ToolInput.category) = some none ∧
    (executeMultiple (setupTools (mkMemoryManager 0 "s") 0)
      (route cachingMsg []).toolInputs).length = 1 ∧
    (executeMultiple (setupTools (mkMemoryManager 0 "s") 0)
      (route cachingMsg []).toolInputs).any (fun r =>
        match r.data with
        | some (ToolData.knowledge k) =>
          k.results.any (fun item =>
            containsSubstr item "TypeScript" || containsSubstr item "caching")
        | _ => false) = true := by
  refine ⟨by decide, by decide, by decide, by with_unfolding_all decide,
    by with_unfolding_all decide⟩
